import Mathlib

/-!
Shallow embedding of the AEDT-plugin repository (two Python files:
`launch_optimizer_from_aedt.py` and `optimizer_gui.py`).

The GUI side (`MainWindow.connect_to_open_aedt`,
`MainWindow.run_hfss_simulation_and_get_s11_summary`,
`MainWindow.run_simulation`) is embedded as pure functions over an explicit
`GuiState` (the mutable fields `self.desktop`, `self.app`, plus an event
trace recording log lines, button enable/disable, dialogs, the PyAEDT calls
and the desktop release).  All external PyAEDT outcomes (import success,
`Desktop(...)` attach, `get_pyaedt_app`, `analyze()`, the solution-data
fetch, `release_desktop`) are parameters gathered in a `World` record, so
the sequencing and exception-handling logic of the Python code is the only
thing the Lean functions compute.  Python exceptions are modelled with
`Except String`; Python truthiness of optional strings and `int(str)`
parsing are modelled explicitly.
-/

namespace AEDTPlugin

/-- Python truthiness of an optional string: `None` and `""` are falsy,
every other string is truthy (models `if not port:` / `if project_path:` /
`if summary:`). -/
def pyTruthy : Option String → Bool
  | none => false
  | some s => !s.isEmpty

/-- Python ASCII whitespace as stripped by `int(str)`. -/
def isPySpace (c : Char) : Bool :=
  c = ' ' || c = '\t' || c = '\n' || c = '\r' || c = '\x0b' || c = '\x0c'

/-- Digit scanner for Python `int(str)` base 10: a nonempty digit sequence in
which an underscore may appear only between two digits.  `prevDigit` records
whether the previous character was a digit (so an underscore is legal and a
final accept requires it). -/
def pyDigitsAux : List Char → Bool → Nat → Option Nat
  | [], prevDigit, acc => if prevDigit then some acc else none
  | c :: cs, prevDigit, acc =>
    if c.isDigit then pyDigitsAux cs true (acc * 10 + (c.toNat - 48))
    else if c = '_' then
      if prevDigit then pyDigitsAux cs false acc else none
    else none

/-- Python `int(str)` in base 10 (ASCII): strip surrounding whitespace, allow
one optional sign, then digits with optional single underscores between
digits.  Returns `none` where Python raises `ValueError`. -/
def pyInt (s : String) : Option Int :=
  let cs := s.data.dropWhile isPySpace
  let cs := (cs.reverse.dropWhile isPySpace).reverse
  match cs with
  | '+' :: rest => (pyDigitsAux rest false 0).map Int.ofNat
  | '-' :: rest => (pyDigitsAux rest false 0).map (fun n => -(n : Int))
  | rest => (pyDigitsAux rest false 0).map Int.ofNat

/-- The process environment as read by both scripts: the two variables
`PYAEDT_SCRIPT_PORT` and `PYAEDT_SCRIPT_VERSION` (`none` = unset). -/
structure Env where
  port : Option String
  version : Option String
deriving Repr, DecidableEq

/-- Kind of modal dialog shown via `QMessageBox`. -/
inductive DialogKind
  | critical
  | information
  | warning
deriving Repr, DecidableEq

/-- Observable events of one GUI run, in chronological order. -/
inductive Event
  | logLine (s : String)
  | setStartBtnEnabled (b : Bool)
  | showDialog (k : DialogKind) (title body : String)
  | attachDesktop (port : Int) (version : String)
  | analyzeCall
  | fetchCall
  | releaseDesktop
deriving Repr, DecidableEq

/-- The mutable state of `MainWindow` relevant to the claims: the fields
`self.desktop` and `self.app` (handles modelled as `Option Unit`), plus the
chronological event trace. -/
structure GuiState where
  desktop : Option Unit
  app : Option Unit
  trace : List Event
deriving Repr, DecidableEq

/-- Append one event to the trace. -/
def emit (e : Event) (st : GuiState) : GuiState :=
  { st with trace := st.trace ++ [e] }

/-- `self.append_log(text)`. -/
def logE (s : String) (st : GuiState) : GuiState :=
  emit (Event.logLine s) st

/-- Outcomes of every external PyAEDT call a run can make.  `Except String`
models a raised Python exception carrying its message. -/
structure World where
  pyaedtInstalled : Bool
  importErr : String
  attachRes : Except String Unit
  getAppRes : Except String Unit
  projectName : String
  designName : String
  analyzeRes : Except String Bool
  fetchRes : Except String (List Int × List Int)
  releaseRes : Except String Unit
deriving Repr

/-- `str(True)` / `str(False)`. -/
def pyBoolStr (b : Bool) : String :=
  if b then "True" else "False"

/-- `MainWindow.connect_to_open_aedt` (optimizer_gui.py lines 58-99): the
PyAEDT import guard, environment read with version default `"2025.2"`, port
truthiness guard, then the guarded attach block (`int(port)`,
`Desktop(...)`, `get_pyaedt_app`) whose `except` clause logs the failure,
resets `self.desktop` and `self.app` to `None` and returns `False`. -/
def connect_to_open_aedt (env : Env) (w : World) (st : GuiState) :
    Bool × GuiState :=
  if !w.pyaedtInstalled then
    (false,
      logE w.importErr
        (logE "ERROR: PyAEDT is not installed in this Python environment." st))
  else
    let version := env.version.getD "2025.2"
    if !pyTruthy env.port then
      (false,
        logE "This GUI must be launched from the AEDT PyAEDT Extension button."
          (logE "ERROR: PYAEDT_SCRIPT_PORT not found in environment." st))
    else
      let ps := env.port.getD ""
      let st := logE ("Connecting to AEDT on gRPC port " ++ ps ++
        " (version=" ++ version ++ ")...") st
      match pyInt ps with
      | none =>
        -- int(port) raised inside the try block before Desktop was called
        let st := logE ("ERROR: Failed to attach to AEDT: invalid literal for int() with base 10: " ++ ps) st
        (false, { st with desktop := none, app := none })
      | some p =>
        let st := emit (Event.attachDesktop p version) st
        match w.attachRes with
        | Except.error e =>
          let st := logE ("ERROR: Failed to attach to AEDT: " ++ e) st
          (false, { st with desktop := none, app := none })
        | Except.ok _ =>
          let st := { st with desktop := some () }
          match w.getAppRes with
          | Except.error e =>
            let st := logE ("ERROR: Failed to attach to AEDT: " ++ e) st
            (false, { st with desktop := none, app := none })
          | Except.ok _ =>
            let st := { st with app := some () }
            let st := logE ("Connected to project '" ++ w.projectName ++
              "', design '" ++ w.designName ++ "'.") st
            (true, st)

/-- One preview line of the summary: `f"{i}: Freq = {freqs[i]}, dB(S11) = {s11_db[i]}"`. -/
def previewLine (i : Nat) (f v : Int) : String :=
  toString i ++ ": Freq = " ++ toString f ++ ", dB(S11) = " ++ toString v

/-- The preview built by the `for i in range(max_to_show)` loop
(optimizer_gui.py lines 141-143). -/
def previewLines (freqs s11 : List Int) : List String :=
  (List.range (min 5 freqs.length)).map
    (fun i => previewLine i (freqs.getD i 0) (s11.getD i 0))

/-- All lines of the popup summary: header plus preview. -/
def s11SummaryLines (freqs s11 : List Int) : List String :=
  ("Retrieved " ++ toString freqs.length ++
    " points of dB(S(1,1)) (showing first few):") :: previewLines freqs s11

/-- `"\n".join(lines)`. -/
def s11Summary (freqs s11 : List Int) : String :=
  String.intercalate "\n" (s11SummaryLines freqs s11)

/-- `MainWindow.run_hfss_simulation_and_get_s11_summary`
(optimizer_gui.py lines 101-148): app guard, guarded `analyze()` with its
warning on a falsy result, then the guarded fetch block with the
zero-points soft failure and the summary construction. -/
def run_hfss_simulation_and_get_s11_summary (w : World) (st : GuiState) :
    Option String × GuiState :=
  if st.app.isNone then
    (none, logE "ERROR: PyAEDT app not available." st)
  else
    let st := logE "Starting HFSS simulation via app.analyze()..." st
    let st := emit Event.analyzeCall st
    match w.analyzeRes with
    | Except.error e => (none, logE ("ERROR during analyze(): " ++ e) st)
    | Except.ok ok =>
      let st := logE ("HFSS analyze() returned: " ++ pyBoolStr ok) st
      let st :=
        if !ok then
          logE "WARNING: analyze() returned False (simulation may have failed)." st
        else st
      let st := logE "Retrieving dB(S(1,1)) solution data..." st
      let st := emit Event.fetchCall st
      match w.fetchRes with
      | Except.error e =>
        (none, logE ("ERROR retrieving solution data: " ++ e) st)
      | Except.ok (freqs, s11) =>
        if freqs.length = 0 then
          (none, logE "No data points returned from get_expression_data()." st)
        else
          (some (s11Summary freqs s11), st)

/-- The `finally` block of `run_simulation` up to the button re-enable
(optimizer_gui.py lines 168-175): release the Desktop handle iff
`self.desktop` is truthy, with the release exception caught and logged. -/
def releaseBlock (w : World) (st : GuiState) : GuiState :=
  if st.desktop.isSome then
    let st := emit Event.releaseDesktop st
    match w.releaseRes with
    | Except.ok _ => logE "Released PyAEDT Desktop connection." st
    | Except.error e =>
      logE ("WARNING: Failed to release Desktop cleanly: " ++ e) st
  else st

/-- `MainWindow.run_simulation` (optimizer_gui.py lines 152-176): disable
the start button, try connect / solve / dialog, and in `finally` release
the handle if present and re-enable the button. -/
def run_simulation (env : Env) (w : World) (st : GuiState) : GuiState :=
  let st := emit (Event.setStartBtnEnabled false) st
  let st := logE "Attempting to connect to open AEDT session..." st
  let cres := connect_to_open_aedt env w st
  let st :=
    if !cres.1 then
      emit (Event.showDialog DialogKind.critical "Simulation Failed"
          "Failed to connect to AEDT.\nCheck the log for details.")
        (logE "Aborting simulation because connection failed." cres.2)
    else
      let hres := run_hfss_simulation_and_get_s11_summary w cres.2
      if pyTruthy hres.1 then
        emit (Event.showDialog DialogKind.information "Simulation Result"
          (hres.1.getD "")) hres.2
      else
        emit (Event.showDialog DialogKind.warning "Simulation Result"
          "Simulation finished, but no result summary is available.\nCheck the log for details.") hres.2
  let st := releaseBlock w st
  emit (Event.setStartBtnEnabled true) st

/-- Whether a run of `connect_to_open_aedt` succeeds; this depends only on
the environment and the world, not on the window state. -/
def connectSucceeds (env : Env) (w : World) : Bool :=
  w.pyaedtInstalled && pyTruthy env.port &&
    (pyInt (env.port.getD "")).isSome &&
    w.attachRes.toBool && w.getAppRes.toBool

/-- Is this event a `release_desktop` attempt? -/
def isRelease : Event → Bool
  | Event.releaseDesktop => true
  | _ => false

/-- Number of `release_desktop` attempts recorded in a trace. -/
def releaseCount (t : List Event) : Nat :=
  (t.filter isRelease).length

/-- The start-button enable/disable events of a trace, in order. -/
def btnEvents (t : List Event) : List Bool :=
  t.filterMap (fun e =>
    match e with
    | Event.setStartBtnEnabled b => some b
    | _ => none)

/-- Is this event a `Desktop(...)` construction attempt? -/
def isAttach : Event → Bool
  | Event.attachDesktop _ _ => true
  | _ => false

/-- Number of `Desktop(...)` construction attempts recorded in a trace. -/
def attachAttempts (t : List Event) : Nat :=
  (t.filter isAttach).length

/-- The value of `self.desktop` after `connect_to_open_aedt` runs, as a
function of the pre-state value `d`: a successful connect sets it, a failure
inside the guarded attach block resets it to `None`, and the early-return
failures (no PyAEDT import, falsy port) leave it untouched. -/
def desktopAfterConnect (env : Env) (w : World) (d : Option Unit) :
    Option Unit :=
  if connectSucceeds env w then some ()
  else if w.pyaedtInstalled && pyTruthy env.port then none
  else d

/-- The fresh state of a newly constructed `MainWindow`
(`self.desktop = None`, `self.app = None`, empty log). -/
def initState : GuiState :=
  { desktop := none, app := none, trace := [] }

/-- A concrete world where every external PyAEDT call succeeds: the import
works, attach and app resolution succeed, `analyze()` returns `True`, the
fetch returns seven points, and the release succeeds. -/
def sampleWorld : World :=
  { pyaedtInstalled := true
    importErr := "No module named ansys.aedt.core"
    attachRes := Except.ok ()
    getAppRes := Except.ok ()
    projectName := "Antenna"
    designName := "HFSSDesign1"
    analyzeRes := Except.ok true
    fetchRes := Except.ok ([1, 2, 3, 4, 5, 6, 7], [10, 20, 30, 40, 50, 60, 70])
    releaseRes := Except.ok () }

/-! ### Launcher side (`launch_optimizer_from_aedt.py`) -/

/-- A port value as passed to `Desktop(...)` by the launcher: either the raw
environment string or the literal `0`. -/
inductive PortVal
  | str (s : String)
  | num (n : Int)
deriving Repr, DecidableEq

/-- Launcher session-locator selection (launch_optimizer_from_aedt.py lines
13-18): if both variables are present in the environment, use both
(the port stays a string); otherwise `port = 0` and `version = "2025.2"`. -/
def launcherLocator (env : Env) : PortVal × String :=
  if env.port.isSome && env.version.isSome then
    (PortVal.str (env.port.getD ""), env.version.getD "")
  else
    (PortVal.num 0, "2025.2")

/-- GUI session-locator selection (optimizer_gui.py lines 68-74): the two
variables are read independently — the version falls back to `"2025.2"`,
while a falsy port aborts the connect (`none`: no locator is formed). -/
def guiLocator (env : Env) : Option (String × String) :=
  let version := env.version.getD "2025.2"
  if pyTruthy env.port then some (env.port.getD "", version) else none

/-- `PYTHON_EXE` constant of the launcher. -/
def PYTHON_EXE : String :=
  "C:\\Program Files\\ANSYS Inc\\v252\\commonfiles\\CPython\\3_10\\winx64\\Release\\python\\python.exe"

/-- The command line built by the launcher (lines 55-57): interpreter, GUI
script path, and the project path as a single extra argument iff truthy. -/
def buildCmd (guiPath : String) (projectPath : Option String) : List String :=
  [PYTHON_EXE, guiPath] ++
    (if pyTruthy projectPath then [projectPath.getD ""] else [])

/-- Launcher spawn step (lines 49-62): if the GUI script file beside the
launcher does not exist, raise `FileNotFoundError` (modelled as
`Except.error`); otherwise build the command and spawn (the spawned command
line is the value returned). -/
def launcherSpawn (guiScriptExists : Bool) (guiScriptPath : String)
    (projectPath : Option String) : Except String (List String) :=
  if !guiScriptExists then
    Except.error ("optimizer_gui.py not found at: " ++ guiScriptPath)
  else
    Except.ok (buildCmd guiScriptPath projectPath)

/-! ### Helper lemmas -/

@[simp]
theorem emit_desktop (e : Event) (st : GuiState) :
    (emit e st).desktop = st.desktop := rfl

@[simp]
theorem emit_app (e : Event) (st : GuiState) :
    (emit e st).app = st.app := rfl

@[simp]
theorem emit_trace (e : Event) (st : GuiState) :
    (emit e st).trace = st.trace ++ [e] := rfl

@[simp]
theorem logE_desktop (s : String) (st : GuiState) :
    (logE s st).desktop = st.desktop := rfl

@[simp]
theorem logE_app (s : String) (st : GuiState) :
    (logE s st).app = st.app := rfl

@[simp]
theorem logE_trace (s : String) (st : GuiState) :
    (logE s st).trace = st.trace ++ [Event.logLine s] := rfl

@[simp]
theorem releaseCount_append (a b : List Event) :
    releaseCount (a ++ b) = releaseCount a + releaseCount b := by
  simp [releaseCount, List.filter_append]

@[simp]
theorem btnEvents_append (a b : List Event) :
    btnEvents (a ++ b) = btnEvents a ++ btnEvents b := by
  simp [btnEvents, List.filterMap_append]

@[simp]
theorem attachAttempts_append (a b : List Event) :
    attachAttempts (a ++ b) = attachAttempts a + attachAttempts b := by
  simp [attachAttempts, List.filter_append]

theorem connect_fst (env : Env) (w : World) (st : GuiState) :
    (connect_to_open_aedt env w st).1 = connectSucceeds env w := by
  cases hI : w.pyaedtInstalled <;>
    cases hP : pyTruthy env.port <;>
      simp [connect_to_open_aedt, connectSucceeds, hI, hP]
  cases hQ : pyInt (env.port.getD "") <;> simp [hQ]
  cases hA : w.attachRes <;> simp [hA, Except.toBool]
  cases hG : w.getAppRes <;> simp [hG, Except.toBool]

theorem connect_snd_desktop (env : Env) (w : World) (st : GuiState) :
    (connect_to_open_aedt env w st).2.desktop =
      desktopAfterConnect env w st.desktop := by
  cases hI : w.pyaedtInstalled <;>
    cases hP : pyTruthy env.port <;>
      simp [connect_to_open_aedt, desktopAfterConnect, connectSucceeds, hI, hP]
  cases hQ : pyInt (env.port.getD "") <;> simp [hQ]
  cases hA : w.attachRes <;> simp [hA, Except.toBool]
  cases hG : w.getAppRes <;> simp [hG, Except.toBool]

theorem connect_snd_app (env : Env) (w : World) (st : GuiState) :
    (connect_to_open_aedt env w st).2.app =
      (if connectSucceeds env w then some ()
       else if w.pyaedtInstalled && pyTruthy env.port then none
       else st.app) := by
  cases hI : w.pyaedtInstalled <;>
    cases hP : pyTruthy env.port <;>
      simp [connect_to_open_aedt, connectSucceeds, hI, hP]
  cases hQ : pyInt (env.port.getD "") <;> simp [hQ]
  cases hA : w.attachRes <;> simp [hA, Except.toBool]
  cases hG : w.getAppRes <;> simp [hG, Except.toBool]

theorem connect_releaseCount (env : Env) (w : World) (st : GuiState) :
    releaseCount (connect_to_open_aedt env w st).2.trace =
      releaseCount st.trace := by
  cases hI : w.pyaedtInstalled <;>
    cases hP : pyTruthy env.port <;>
      simp [connect_to_open_aedt, hI, hP, releaseCount, isRelease]
  cases hQ : pyInt (env.port.getD "") <;> simp [hQ, isRelease]
  cases hA : w.attachRes <;> simp [hA, isRelease]
  cases hG : w.getAppRes <;> simp [hG, isRelease]

theorem connect_btnEvents (env : Env) (w : World) (st : GuiState) :
    btnEvents (connect_to_open_aedt env w st).2.trace =
      btnEvents st.trace := by
  cases hI : w.pyaedtInstalled <;>
    cases hP : pyTruthy env.port <;>
      simp [connect_to_open_aedt, hI, hP, btnEvents]
  cases hQ : pyInt (env.port.getD "") <;> simp [hQ]
  cases hA : w.attachRes <;> simp [hA]
  cases hG : w.getAppRes <;> simp [hG]

theorem hfss_desktop (w : World) (st : GuiState) :
    (run_hfss_simulation_and_get_s11_summary w st).2.desktop = st.desktop := by
  cases hA : st.app.isNone <;>
    simp [run_hfss_simulation_and_get_s11_summary, hA]
  cases hR : w.analyzeRes with
  | error e => simp [hR]
  | ok ok =>
    cases hF : w.fetchRes with
    | error e => cases ok <;> simp [hR, hF]
    | ok p =>
      obtain ⟨freqs, s11⟩ := p
      cases ok <;> cases freqs <;> simp [hR, hF]

theorem hfss_releaseCount (w : World) (st : GuiState) :
    releaseCount (run_hfss_simulation_and_get_s11_summary w st).2.trace =
      releaseCount st.trace := by
  cases hA : st.app.isNone <;>
    simp [run_hfss_simulation_and_get_s11_summary, hA, releaseCount, isRelease]
  cases hR : w.analyzeRes with
  | error e => simp [hR, isRelease]
  | ok ok =>
    cases hF : w.fetchRes with
    | error e => cases ok <;> simp [hR, hF, isRelease]
    | ok p =>
      obtain ⟨freqs, s11⟩ := p
      cases ok <;> cases freqs <;> simp [hR, hF, isRelease]

theorem hfss_btnEvents (w : World) (st : GuiState) :
    btnEvents (run_hfss_simulation_and_get_s11_summary w st).2.trace =
      btnEvents st.trace := by
  cases hA : st.app.isNone <;>
    simp [run_hfss_simulation_and_get_s11_summary, hA, btnEvents]
  cases hR : w.analyzeRes with
  | error e => simp [hR]
  | ok ok =>
    cases hF : w.fetchRes with
    | error e => cases ok <;> simp [hR, hF]
    | ok p =>
      obtain ⟨freqs, s11⟩ := p
      cases ok <;> cases freqs <;> simp [hR, hF]

theorem releaseBlock_desktop (w : World) (st : GuiState) :
    (releaseBlock w st).desktop = st.desktop := by
  cases hD : st.desktop.isSome <;> simp [releaseBlock, hD]
  cases hRel : w.releaseRes <;> simp [hRel]

theorem releaseBlock_releaseCount (w : World) (st : GuiState) :
    releaseCount (releaseBlock w st).trace =
      releaseCount st.trace + (if st.desktop.isSome then 1 else 0) := by
  cases hD : st.desktop.isSome <;>
    simp [releaseBlock, hD, releaseCount, isRelease]
  cases hRel : w.releaseRes <;> simp [hRel, isRelease]

theorem releaseBlock_btnEvents (w : World) (st : GuiState) :
    btnEvents (releaseBlock w st).trace = btnEvents st.trace := by
  cases hD : st.desktop.isSome <;> simp [releaseBlock, hD, btnEvents]
  cases hRel : w.releaseRes <;> simp [hRel]

@[simp]
theorem releaseCount_nil : releaseCount [] = 0 := rfl

@[simp]
theorem releaseCount_cons (e : Event) (t : List Event) :
    releaseCount (e :: t) = (if isRelease e then 1 else 0) + releaseCount t := by
  cases h : isRelease e <;> simp [releaseCount, List.filter_cons, h, Nat.add_comm]

@[simp]
theorem btnEvents_nil : btnEvents [] = [] := rfl

@[simp]
theorem btnEvents_cons (e : Event) (t : List Event) :
    btnEvents (e :: t) =
      (match e with
        | Event.setStartBtnEnabled b => [b]
        | _ => []) ++ btnEvents t := by
  cases e <;> simp [btnEvents]

@[simp]
theorem attachAttempts_nil : attachAttempts [] = 0 := rfl

@[simp]
theorem attachAttempts_cons (e : Event) (t : List Event) :
    attachAttempts (e :: t) =
      (if isAttach e then 1 else 0) + attachAttempts t := by
  cases h : isAttach e <;> simp [attachAttempts, List.filter_cons, h, Nat.add_comm]

theorem tail_desktop (w : World) (X : GuiState) :
    (emit (Event.setStartBtnEnabled true) (releaseBlock w X)).desktop =
      X.desktop := by
  rw [emit_desktop, releaseBlock_desktop]

theorem tail_releaseCount (w : World) (X : GuiState) :
    releaseCount (emit (Event.setStartBtnEnabled true)
        (releaseBlock w X)).trace =
      releaseCount X.trace + (if X.desktop.isSome then 1 else 0) := by
  rw [emit_trace, releaseCount_append, releaseBlock_releaseCount]
  simp [isRelease]

theorem tail_btnEvents (w : World) (X : GuiState) :
    btnEvents (emit (Event.setStartBtnEnabled true)
        (releaseBlock w X)).trace =
      btnEvents X.trace ++ [true] := by
  rw [emit_trace, btnEvents_append, releaseBlock_btnEvents]
  simp

theorem run_sim_desktop (env : Env) (w : World) (st : GuiState) :
    (run_simulation env w st).desktop =
      desktopAfterConnect env w st.desktop := by
  unfold run_simulation
  rw [tail_desktop]
  cases hC : (connect_to_open_aedt env w
      (logE "Attempting to connect to open AEDT session..."
        (emit (Event.setStartBtnEnabled false) st))).1 <;>
    simp only [hC, Bool.not_true, Bool.not_false, if_true, if_false,
      Bool.false_eq_true, Bool.true_eq_false, ite_true, ite_false]
  case false =>
    rw [emit_desktop, logE_desktop, connect_snd_desktop]
    simp
  case true =>
    split <;>
      rw [emit_desktop, hfss_desktop, connect_snd_desktop] <;> simp

theorem run_sim_releaseCount (env : Env) (w : World) (st : GuiState) :
    releaseCount (run_simulation env w st).trace =
      releaseCount st.trace +
        (if (desktopAfterConnect env w st.desktop).isSome then 1 else 0) := by
  unfold run_simulation
  rw [tail_releaseCount]
  cases hC : (connect_to_open_aedt env w
      (logE "Attempting to connect to open AEDT session..."
        (emit (Event.setStartBtnEnabled false) st))).1 <;>
    simp only [hC, Bool.not_true, Bool.not_false, if_true, if_false,
      Bool.false_eq_true, Bool.true_eq_false, ite_true, ite_false]
  case false =>
    rw [emit_desktop, logE_desktop, connect_snd_desktop]
    simp [connect_releaseCount, isRelease]
  case true =>
    split <;>
      rw [emit_desktop, hfss_desktop, connect_snd_desktop] <;>
        simp [hfss_releaseCount, connect_releaseCount, isRelease]

theorem run_sim_btnEvents (env : Env) (w : World) (st : GuiState) :
    btnEvents (run_simulation env w st).trace =
      btnEvents st.trace ++ [false, true] := by
  unfold run_simulation
  rw [tail_btnEvents]
  cases hC : (connect_to_open_aedt env w
      (logE "Attempting to connect to open AEDT session..."
        (emit (Event.setStartBtnEnabled false) st))).1 <;>
    simp only [hC, Bool.not_true, Bool.not_false, if_true, if_false,
      Bool.false_eq_true, Bool.true_eq_false, ite_true, ite_false]
  case false =>
    simp [connect_btnEvents]
  case true =>
    split <;> simp [hfss_btnEvents, connect_btnEvents]

/-! ### Claim theorems -/

/-- C1: for every run of `run_simulation` that starts with no session handle
(`self.desktop = None`), `release_desktop` is attempted exactly once when
`connect_to_open_aedt` succeeded in attaching — for every solve outcome
(success, falsy status, exception) and every fetch/release outcome — and is
never attempted when the connect step failed. -/
theorem C1_release_exactly_once_iff_connected (env : Env) (w : World)
    (st : GuiState) (h : st.desktop = none) :
    releaseCount (run_simulation env w st).trace =
      releaseCount st.trace + (if connectSucceeds env w then 1 else 0) := by
  rw [run_sim_releaseCount]
  unfold desktopAfterConnect
  rw [h]
  cases hC : connectSucceeds env w <;> simp

/-- Witness for C1 at a concrete environment, world and fresh window. -/
theorem C1_witness :
    releaseCount (run_simulation ⟨some "50051", none⟩ sampleWorld
        initState).trace =
      releaseCount initState.trace +
        (if connectSucceeds ⟨some "50051", none⟩ sampleWorld then 1 else 0) :=
  C1_release_exactly_once_iff_connected ⟨some "50051", none⟩ sampleWorld
    initState rfl

/-- C7: in every run of `run_simulation`, whatever the environment and the
external outcomes, the start button is disabled at the start and re-enabled
at the very end: the run adds exactly the two button events
`[disable, enable]` in that order, and the very last event of the run is
the re-enable. -/
theorem C7_button_disabled_exactly_for_run (env : Env) (w : World)
    (st : GuiState) :
    btnEvents (run_simulation env w st).trace =
      btnEvents st.trace ++ [false, true] ∧
    (run_simulation env w st).trace.getLast? =
      some (Event.setStartBtnEnabled true) := by
  refine ⟨run_sim_btnEvents env w st, ?_⟩
  unfold run_simulation
  rw [emit_trace]
  exact List.getLast?_concat _

/-- C9: a successful run leaves `self.desktop` set (it is not reset to
`None` after `release_desktop`), so a subsequent run on the same window in
which `connect_to_open_aedt` returns `False` before attempting the attach
(falsy port with PyAEDT importable) still finds the stale truthy handle in
the `finally` block and attempts `release_desktop` on it again. -/
theorem C9_stale_handle_released_again (env env2 : Env) (w w2 : World)
    (st : GuiState)
    (hC : connectSucceeds env w = true)
    (hP : pyTruthy env2.port = false) :
    (run_simulation env w st).desktop = some () ∧
    connectSucceeds env2 w2 = false ∧
    releaseCount (run_simulation env2 w2 (run_simulation env w st)).trace =
      releaseCount (run_simulation env w st).trace + 1 := by
  have hd : (run_simulation env w st).desktop = some () := by
    rw [run_sim_desktop]
    simp [desktopAfterConnect, hC]
  refine ⟨hd, ?_, ?_⟩
  · simp [connectSucceeds, hP]
  · rw [run_sim_releaseCount, hd]
    simp [desktopAfterConnect, connectSucceeds, hP]

/-- Witness for C9: first run on `⟨some "50051", none⟩`, second run with the
port variable unset. -/
theorem C9_witness :
    releaseCount (run_simulation ⟨none, none⟩ sampleWorld
        (run_simulation ⟨some "50051", none⟩ sampleWorld initState)).trace =
      releaseCount (run_simulation ⟨some "50051", none⟩ sampleWorld
        initState).trace + 1 :=
  (C9_stale_handle_released_again ⟨some "50051", none⟩ ⟨none, none⟩
    sampleWorld sampleWorld initState (by decide) (by decide)).2.2

/-- C2 counterexample: with `PYAEDT_SCRIPT_PORT` set and only
`PYAEDT_SCRIPT_VERSION` unset — one of the claim's
"missing-environment-variable cases" — `connect_to_open_aedt` does not
fail: it attempts the Desktop construction exactly once, returns `True`,
and sets the session handle. -/
theorem C2_counterexample :
    (connect_to_open_aedt ⟨some "50051", none⟩ sampleWorld initState).1 =
      true ∧
    attachAttempts (connect_to_open_aedt ⟨some "50051", none⟩ sampleWorld
      initState).2.trace = 1 ∧
    (connect_to_open_aedt ⟨some "50051", none⟩ sampleWorld
      initState).2.desktop = some () := by
  decide

/-- C2 (amended): when PyAEDT is importable and `PYAEDT_SCRIPT_PORT` is
unset or empty, `connect_to_open_aedt` returns `False` without attempting
to construct a Desktop connection, leaves `self.desktop` and `self.app`
untouched (hence null on a fresh window), and logs the actionable
launch-from-the-extension error; a missing `PYAEDT_SCRIPT_VERSION` alone
does not cause a failure — the connect behaves exactly as if the version
were the default `"2025.2"`. -/
theorem C2_missing_port_aborts_connect (env : Env) (w : World)
    (st : GuiState) (hI : w.pyaedtInstalled = true)
    (hP : pyTruthy env.port = false) :
    (connect_to_open_aedt env w st).1 = false ∧
    (connect_to_open_aedt env w st).2.desktop = st.desktop ∧
    (connect_to_open_aedt env w st).2.app = st.app ∧
    attachAttempts (connect_to_open_aedt env w st).2.trace =
      attachAttempts st.trace ∧
    Event.logLine "ERROR: PYAEDT_SCRIPT_PORT not found in environment." ∈
      (connect_to_open_aedt env w st).2.trace ∧
    Event.logLine
        "This GUI must be launched from the AEDT PyAEDT Extension button." ∈
      (connect_to_open_aedt env w st).2.trace ∧
    connect_to_open_aedt ⟨env.port, none⟩ w st =
      connect_to_open_aedt ⟨env.port, some "2025.2"⟩ w st := by
  refine ⟨?_, ?_, ?_, ?_, ?_, ?_, rfl⟩ <;>
    simp [connect_to_open_aedt, hI, hP, isAttach]

/-- Witness for C2 (amended) at a concrete unset-port environment. -/
theorem C2_witness :
    (connect_to_open_aedt ⟨none, some "2024.1"⟩ sampleWorld initState).1 =
      false :=
  (C2_missing_port_aborts_connect ⟨none, some "2024.1"⟩ sampleWorld
    initState (by decide) (by decide)).1

/-- C3 counterexample: with the port variable unset and the version variable
set — a case where, by the claim, both sides should fall back to the
defaults `(0, "2025.2")` — the launcher does use the defaults but the GUI
connect routine forms no locator at all: it returns `False` and never
attempts a Desktop construction, so it does not use a default port. -/
theorem C3_counterexample :
    launcherLocator ⟨none, some "2024.1"⟩ = (PortVal.num 0, "2025.2") ∧
    guiLocator ⟨none, some "2024.1"⟩ = none ∧
    (connect_to_open_aedt ⟨none, some "2024.1"⟩ sampleWorld initState).1 =
      false ∧
    attachAttempts (connect_to_open_aedt ⟨none, some "2024.1"⟩ sampleWorld
      initState).2.trace = 0 := by
  decide

/-- C3 (amended): the launcher uses the environment pair as
`(port, version)` when both variables are present and otherwise the
defaults `(0, "2025.2")`; the GUI connect routine reads the two variables
independently — the version falls back to `"2025.2"` when unset, while an
unset or empty port yields no locator (the connect aborts without
attempting the attach), and when the port is truthy the selected pair is
exactly what the connect log line reports. -/
theorem C3_locator_selection (env : Env) (w : World) (st : GuiState)
    (hI : w.pyaedtInstalled = true) :
    launcherLocator env =
      (if env.port.isSome && env.version.isSome then
        (PortVal.str (env.port.getD ""), env.version.getD "")
      else (PortVal.num 0, "2025.2")) ∧
    guiLocator env =
      (if pyTruthy env.port then
        some (env.port.getD "", env.version.getD "2025.2")
      else none) ∧
    (guiLocator env = none →
      (connect_to_open_aedt env w st).1 = false ∧
      attachAttempts (connect_to_open_aedt env w st).2.trace =
        attachAttempts st.trace) ∧
    (∀ p v, guiLocator env = some (p, v) →
      Event.logLine ("Connecting to AEDT on gRPC port " ++ p ++
          " (version=" ++ v ++ ")...") ∈
        (connect_to_open_aedt env w st).2.trace) := by
  refine ⟨rfl, rfl, ?_, ?_⟩
  · intro hg
    have hP : pyTruthy env.port = false := by
      by_contra hP
      rw [Bool.not_eq_false] at hP
      simp [guiLocator, hP] at hg
    exact ⟨(C2_missing_port_aborts_connect env w st hI hP).1,
      (C2_missing_port_aborts_connect env w st hI hP).2.2.2.1⟩
  · intro p v hg
    have hP : pyTruthy env.port = true := by
      by_contra hP
      rw [Bool.not_eq_true] at hP
      simp [guiLocator, hP] at hg
    rw [guiLocator] at hg
    simp only [hP, if_true, ite_true, Option.some.injEq, Prod.mk.injEq] at hg
    obtain ⟨hp, hv⟩ := hg
    subst hp
    subst hv
    cases hQ : pyInt (env.port.getD "") with
    | none => simp [connect_to_open_aedt, hI, hP, hQ]
    | some q =>
      cases hA : w.attachRes with
      | error e => simp [connect_to_open_aedt, hI, hP, hQ, hA]
      | ok u =>
        cases hG : w.getAppRes with
        | error e => simp [connect_to_open_aedt, hI, hP, hQ, hA, hG]
        | ok u2 => simp [connect_to_open_aedt, hI, hP, hQ, hA, hG]

/-- Witness for C3 (amended) at a concrete both-variables-present
environment. -/
theorem C3_witness :
    launcherLocator ⟨some "50051", some "2025.1"⟩ =
      (if (some "50051" : Option String).isSome &&
          (some "2025.1" : Option String).isSome then
        (PortVal.str ((some "50051" : Option String).getD ""),
          (some "2025.1" : Option String).getD "")
      else (PortVal.num 0, "2025.2")) :=
  (C3_locator_selection ⟨some "50051", some "2025.1"⟩ sampleWorld initState
    (by decide)).1

/-- C10: for every nonempty, non-numeric value of `PYAEDT_SCRIPT_PORT` the
`int(port)` conversion fails inside the guarded attach block: the exception
is caught, the attach-failure message is logged, both `self.desktop` and
`self.app` are set to `None`, no Desktop construction is attempted, and
`connect_to_open_aedt` returns `False` (it never raises). -/
theorem C10_nonnumeric_port_exception_caught (s : String) (v : Option String)
    (w : World) (st : GuiState) (hs : s.isEmpty = false)
    (hp : pyInt s = none) (hI : w.pyaedtInstalled = true) :
    (connect_to_open_aedt ⟨some s, v⟩ w st).1 = false ∧
    (connect_to_open_aedt ⟨some s, v⟩ w st).2.desktop = none ∧
    (connect_to_open_aedt ⟨some s, v⟩ w st).2.app = none ∧
    Event.logLine
        ("ERROR: Failed to attach to AEDT: invalid literal for int() with base 10: "
          ++ s) ∈ (connect_to_open_aedt ⟨some s, v⟩ w st).2.trace ∧
    attachAttempts (connect_to_open_aedt ⟨some s, v⟩ w st).2.trace =
      attachAttempts st.trace := by
  have hP : pyTruthy (some s) = true := by simp [pyTruthy, hs]
  refine ⟨?_, ?_, ?_, ?_, ?_⟩ <;>
    simp [connect_to_open_aedt, hI, hP, hp, isAttach]

/-- Witness for C10 with the non-numeric port string `"abc"`. -/
theorem C10_witness :
    (connect_to_open_aedt ⟨some "abc", none⟩ sampleWorld initState).1 =
      false :=
  (C10_nonnumeric_port_exception_caught "abc" none sampleWorld initState
    (by decide) (by decide) (by decide)).1

/-- C4: when the fetch returns `N > 0` points (two parallel sequences of
equal length, as the vendor contract guarantees), the run returns the
summary whose preview holds exactly `min 5 N` entries, in original order,
entry `i` pairing the `i`-th frequency with the `i`-th decibel value. -/
theorem C4_preview_min_five_points (w : World) (st : GuiState)
    (freqs s11 : List Int) (b : Bool)
    (hApp : st.app = some ())
    (hA : w.analyzeRes = Except.ok b)
    (hF : w.fetchRes = Except.ok (freqs, s11))
    (hN : 0 < freqs.length) :
    (run_hfss_simulation_and_get_s11_summary w st).1 =
      some (s11Summary freqs s11) ∧
    (previewLines freqs s11).length = min 5 freqs.length ∧
    (∀ i, i < min 5 freqs.length →
      (previewLines freqs s11).getD i "" =
        previewLine i (freqs.getD i 0) (s11.getD i 0)) := by
  have hne : freqs ≠ [] := by
    intro hnil
    rw [hnil] at hN
    simp at hN
  refine ⟨?_, ?_, ?_⟩
  · cases b <;>
      simp [run_hfss_simulation_and_get_s11_summary, hApp, hA, hF, hne]
  · simp [previewLines]
  · intro i hi
    simp [previewLines, List.getD_eq_getElem?_getD, List.getElem?_map,
      List.getElem?_range, hi]

/-- Witness for C4 on a seven-point fetch. -/
theorem C4_witness :
    (run_hfss_simulation_and_get_s11_summary sampleWorld
        ⟨none, some (), []⟩).1 =
      some (s11Summary [1, 2, 3, 4, 5, 6, 7]
        [10, 20, 30, 40, 50, 60, 70]) :=
  (C4_preview_min_five_points sampleWorld ⟨none, some (), []⟩
    [1, 2, 3, 4, 5, 6, 7] [10, 20, 30, 40, 50, 60, 70] true rfl rfl rfl
    (by decide)).1

/-- C5: when the fetch returns zero data points, the run logs the "no data"
message and returns `None` (a soft failure with no exception and no
indexing into the result sequences — the preview loop is never entered). -/
theorem C5_zero_points_soft_failure (w : World) (st : GuiState)
    (s11 : List Int) (b : Bool)
    (hApp : st.app = some ())
    (hA : w.analyzeRes = Except.ok b)
    (hF : w.fetchRes = Except.ok ([], s11)) :
    (run_hfss_simulation_and_get_s11_summary w st).1 = none ∧
    Event.logLine "No data points returned from get_expression_data()." ∈
      (run_hfss_simulation_and_get_s11_summary w st).2.trace := by
  refine ⟨?_, ?_⟩ <;>
    cases b <;>
      simp [run_hfss_simulation_and_get_s11_summary, hApp, hA, hF]

/-- Witness for C5 on an empty fetch result. -/
theorem C5_witness :
    (run_hfss_simulation_and_get_s11_summary
        { sampleWorld with fetchRes := Except.ok ([], []) }
        ⟨none, some (), []⟩).1 = none :=
  (C5_zero_points_soft_failure
    { sampleWorld with fetchRes := Except.ok ([], []) }
    ⟨none, some (), []⟩ [] true rfl rfl rfl).1

/-- C6: a falsy `analyze()` result (no exception) logs the warning and the
run still proceeds to the result-fetch step, whatever the fetch outcome;
only a raised exception during `analyze()` halts progression before the
fetch. -/
theorem C6_false_analyze_still_fetches (w : World) (st : GuiState)
    (hApp : st.app = some ())
    (hNoF : Event.fetchCall ∉ st.trace) :
    (w.analyzeRes = Except.ok false →
      Event.logLine
          "WARNING: analyze() returned False (simulation may have failed)." ∈
        (run_hfss_simulation_and_get_s11_summary w st).2.trace ∧
      Event.fetchCall ∈
        (run_hfss_simulation_and_get_s11_summary w st).2.trace) ∧
    (∀ e, w.analyzeRes = Except.error e →
      (run_hfss_simulation_and_get_s11_summary w st).1 = none ∧
      Event.fetchCall ∉
        (run_hfss_simulation_and_get_s11_summary w st).2.trace) := by
  constructor
  · intro hA
    cases hF : w.fetchRes with
    | error e =>
      constructor <;>
        simp [run_hfss_simulation_and_get_s11_summary, hApp, hA, hF]
    | ok p =>
      obtain ⟨freqs, s11⟩ := p
      cases hfr : freqs with
      | nil =>
        constructor <;>
          simp [run_hfss_simulation_and_get_s11_summary, hApp, hA, hF, hfr]
      | cons a l =>
        constructor <;>
          simp [run_hfss_simulation_and_get_s11_summary, hApp, hA, hF, hfr]
  · intro e hA
    constructor <;>
      simp [run_hfss_simulation_and_get_s11_summary, hApp, hA, hNoF]

/-- Witness for C6: with `analyze()` returning `False` the fetch step is
still reached. -/
theorem C6_witness :
    Event.fetchCall ∈
      (run_hfss_simulation_and_get_s11_summary
        { sampleWorld with analyzeRes := Except.ok false }
        ⟨none, some (), []⟩).2.trace :=
  ((C6_false_analyze_still_fetches
    { sampleWorld with analyzeRes := Except.ok false }
    ⟨none, some (), []⟩ rfl (by decide)).1 rfl).2

/-- C8: the launcher spawn step raises `FileNotFoundError` exactly when the
GUI script beside the launcher does not exist; when it exists, the spawned
command line is the interpreter and the script path, plus the project path
as a single positional argument iff that path is truthy (non-empty). -/
theorem C8_spawn_iff_script_exists (ex : Bool) (path : String)
    (p : Option String) :
    (launcherSpawn ex path p).isOk = ex ∧
    (ex = false →
      launcherSpawn ex path p =
        Except.error ("optimizer_gui.py not found at: " ++ path)) ∧
    (ex = true →
      launcherSpawn ex path p =
        Except.ok ([PYTHON_EXE, path] ++
          (if pyTruthy p then [p.getD ""] else []))) ∧
    (ex = true → pyTruthy p = false →
      launcherSpawn ex path p = Except.ok [PYTHON_EXE, path]) := by
  cases ex <;>
    cases hp : pyTruthy p <;>
      simp [launcherSpawn, buildCmd, hp, Except.isOk, Except.toBool]

/-- Witness for C8: a missing script aborts, an existing script with an
empty project path spawns with no extra argument. -/
theorem C8_witness :
    launcherSpawn false "D:/ext/optimizer_gui.py" (some "") =
      Except.error
        ("optimizer_gui.py not found at: " ++ "D:/ext/optimizer_gui.py") :=
  (C8_spawn_iff_script_exists false "D:/ext/optimizer_gui.py"
    (some "")).2.1 rfl

end AEDTPlugin
